import Mathlib

/-!
Verification of the asynchronous request/response correlation core of the
AI-Projects repository: the result normalizer and ingress endpoint
(responseHandler.py) and the voice session adapter with its dispatcher and
poller (AlexaOllamaRouter.py), shallowly embedded as Lean functions.
-/

set_option maxHeartbeats 1000000

namespace AIProjects

/-- Python-like JSON values as handled by the response handler. -/
inductive PyVal where
  | none : PyVal
  | bool : Bool → PyVal
  | int : Int → PyVal
  | str : String → PyVal
  | list : List PyVal → PyVal
  | dict : List (String × PyVal) → PyVal

/-- Python exception classes relevant to the embedded code paths. -/
inductive PyExc where
  | keyError
  | indexError
  | typeError
  | attributeError
  | valueError
  deriving DecidableEq

/-- Python truthiness for the modelled values. -/
def truthy : PyVal → Bool
  | PyVal.none => false
  | PyVal.bool b => b
  | PyVal.int n => n != 0
  | PyVal.str s => s != ""
  | PyVal.list xs => !xs.isEmpty
  | PyVal.dict xs => !xs.isEmpty

/-- Python `s.strip()`: remove leading and trailing whitespace. Stated over
the character list so that it reduces in the kernel. -/
def stripStr (s : String) : String :=
  String.mk
    (((s.data.dropWhile Char.isWhitespace).reverse.dropWhile
        Char.isWhitespace).reverse)

/-- Python `s[:n]`: the first n characters of s. -/
def takeStr (s : String) (n : Nat) : String :=
  String.mk (s.data.take n)

/-- Python `s.upper()`. -/
def upperStr (s : String) : String :=
  String.mk (s.data.map Char.toUpper)

/-- Python subscript access `v[k]` with a string key: succeeds only on a dict
that has the key; a dict without the key raises KeyError; every other value
raises TypeError (string/list/int/bool/None are not indexable by a string). -/
def getItem (v : PyVal) (k : String) : Except PyExc PyVal :=
  match v with
  | PyVal.dict xs =>
    match xs.lookup k with
    | some w => Except.ok w
    | Option.none => Except.error PyExc.keyError
  | _ => Except.error PyExc.typeError

/-- Python subscript access `v[i]` with an integer index: list indexing (or
IndexError when out of range), string indexing (one-character string, or
IndexError), KeyError on a string-keyed dict, TypeError otherwise. -/
def getIdx (v : PyVal) (i : Nat) : Except PyExc PyVal :=
  match v with
  | PyVal.list xs =>
    match xs.get? i with
    | some w => Except.ok w
    | Option.none => Except.error PyExc.indexError
  | PyVal.str s =>
    match s.data.get? i with
    | some c => Except.ok (PyVal.str (String.mk [c]))
    | Option.none => Except.error PyExc.indexError
  | PyVal.dict _ => Except.error PyExc.keyError
  | _ => Except.error PyExc.typeError

/-- Python `v.strip()`: defined on strings only; any other value raises
AttributeError. -/
def pyStrip (v : PyVal) : Except PyExc String :=
  match v with
  | PyVal.str s => Except.ok (stripStr s)
  | _ => Except.error PyExc.attributeError

/-- Python `v.get(k)` (dict method, default None); on a non-dict the attribute
access raises AttributeError. -/
def pyGet (v : PyVal) (k : String) : Except PyExc PyVal :=
  match v with
  | PyVal.dict xs => Except.ok ((xs.lookup k).getD PyVal.none)
  | _ => Except.error PyExc.attributeError

/-- The attempted nested extraction
`response_payload["content"]["choices"][0]["message"]["content"].strip()`
of responseHandler.extract_ai_text. -/
def nestedPath (p : PyVal) : Except PyExc String := do
  let c ← getItem p "content"
  let ch ← getItem c "choices"
  let ch0 ← getIdx ch 0
  let m ← getItem ch0 "message"
  let co ← getItem m "content"
  pyStrip co

/-- Model of responseHandler.extract_ai_text: returns `Except.ok` of the extracted text
(`Option.none` when no rule applies) or `Except.error e` when the Python code
would raise exception `e`. Only KeyError, IndexError and TypeError from the
nested path are caught; any other exception escapes. -/
def extract_ai_text (p : PyVal) : Except PyExc (Option String) :=
  match p with
  | PyVal.none => Except.ok Option.none
  | PyVal.str s => Except.ok (some (stripStr s))
  | PyVal.dict xs =>
    match nestedPath (PyVal.dict xs) with
    | Except.ok s => Except.ok (some s)
    | Except.error PyExc.keyError | Except.error PyExc.indexError
    | Except.error PyExc.typeError =>
      match (xs.lookup "text").getD PyVal.none with
      | PyVal.str t => Except.ok (some (stripStr t))
      | _ => Except.ok Option.none
    | Except.error e => Except.error e
  | _ => Except.ok Option.none

/-- The DynamoDB-backed correlation store, abstracted: the table mapping
request identifiers to stored response texts, plus flags saying whether the
underlying put_item / get_item calls fail (ClientError or BotoCoreError). -/
structure Store where
  table : List (String × String)
  putFails : Bool
  getFails : Bool

/-- Model of responseHandler.persist_response: refuses falsy identifier or empty text,
attempts the put (a non-string identifier makes boto raise a
ParamValidationError, a BotoCoreError, which is caught), and reports success
as a Bool. Returns the possibly-updated store alongside. -/
def persist_response (request_id : PyVal) (ai_text : String) (st : Store) :
    Bool × Store :=
  if truthy request_id = false ∨ ai_text = "" then (false, st)
  else
    match request_id with
    | PyVal.str rid =>
      if st.putFails then (false, st)
      else (true, { st with table := (rid, ai_text) :: st.table })
    | _ => (false, st)

/-- An API-gateway event as consumed by responseHandler.lambda_handler:
the HTTP method (absent when the event carries none), the POST body after
json.loads (`Option.none` models a body that fails to parse, which raises),
and the GET query-string parameters. -/
structure Event where
  method : Option String
  body : Option PyVal
  queryParams : List (String × String)

/-- The HTTP response produced by the lambda: a status code and a JSON body
(plain-text bodies are modelled as `PyVal.str`). -/
structure HttpResponse where
  statusCode : Nat
  body : PyVal

/-- Model of responseHandler.lambda_handler. POST: parse the body (parse failure or a
non-dict body raises and is converted to 500 by the outer handler), pick
`body.get("response") or body.get("text")` as the raw payload, normalize it
with extract_ai_text (an escaping exception again becomes 500), reject falsy
identifier or falsy text with 400, otherwise persist and answer 200 with
`{ok: success}`. GET: missing (or falsy) request_id gives 400; a store read
failure gives 500; a missing record gives 200 with `{response: null}`; a
present record gives 200 with the stored text. Other methods give 405. -/
def lambda_handler (event : Event) (st : Store) : HttpResponse × Store :=
  match event.method with
  | Option.none => (⟨400, PyVal.str "Bad request"⟩, st)
  | some m =>
    if upperStr m = "POST" then
      match event.body with
      | Option.none => (⟨500, PyVal.str "Internal server error"⟩, st)
      | some (PyVal.dict xs) =>
        let request_id := (xs.lookup "request_id").getD PyVal.none
        let respField := (xs.lookup "response").getD PyVal.none
        let textField := (xs.lookup "text").getD PyVal.none
        let ai_text_raw := if truthy respField then respField else textField
        match extract_ai_text ai_text_raw with
        | Except.error _ => (⟨500, PyVal.str "Internal server error"⟩, st)
        | Except.ok ai_text =>
          if truthy request_id = false ∨ ai_text.getD "" = "" then
            (⟨400, PyVal.str "Missing request_id or valid response text"⟩, st)
          else
            let ps := persist_response request_id (ai_text.getD "") st
            (⟨200, PyVal.dict [("ok", PyVal.bool ps.fst)]⟩, ps.snd)
      | some _ => (⟨500, PyVal.str "Internal server error"⟩, st)
    else if upperStr m = "GET" then
      match event.queryParams.lookup "request_id" with
      | Option.none => (⟨400, PyVal.str "Missing request_id"⟩, st)
      | some rid =>
        if rid = "" then (⟨400, PyVal.str "Missing request_id"⟩, st)
        else if st.getFails then
          (⟨500, PyVal.str "Internal server error"⟩, st)
        else
          match st.table.lookup rid with
          | Option.none =>
            (⟨200, PyVal.dict [("response", PyVal.none)]⟩, st)
          | some v =>
            (⟨200, PyVal.dict [("response", PyVal.str v)]⟩, st)
    else (⟨405, PyVal.str "Method not allowed"⟩, st)

/-- The outcome of one HTTP GET performed by AlexaOllamaRouter.fetch_response:
a transport-level exception, or a response with a status and a decoded JSON
body (`Option.none` models a body that fails to decode as JSON). -/
inductive HttpOutcome where
  | exn
  | response (status : Nat) (body : Option PyVal)

/-- Model of AlexaOllamaRouter.fetch_response: any transport exception, non-200 status,
decode failure, or `.get` on a non-dict body yields None (`PyVal.none`);
otherwise the value of the body's "response" field (null when absent). -/
def fetch_response (o : HttpOutcome) : PyVal :=
  match o with
  | HttpOutcome.exn => PyVal.none
  | HttpOutcome.response status body =>
    if status ≠ 200 then PyVal.none
    else
      match body with
      | some (PyVal.dict xs) => (xs.lookup "response").getD PyVal.none
      | _ => PyVal.none

/-- The polling loop of AskIntentHandler.handle, in discrete time: `fetch i`
is the value fetch_response yields on the i-th attempt, and the fuel is the
number of attempts the deadline leaves room for. Returns the final value of ai_text
together with the number of attempts made. -/
def poll_loop (fetch : Nat → PyVal) : Nat → Nat → PyVal × Nat
  | _, 0 => (PyVal.none, 0)
  | i, n+1 =>
    let r := fetch i
    if truthy r then (r, 1)
    else
      let rest := poll_loop fetch (i+1) n
      (rest.fst, rest.snd + 1)

/-- Model of the AlexaOllamaRouter speech-safety helper with the default max_len of 7000: falsy
input yields "", a string is trimmed then truncated, and a truthy non-string
raises AttributeError at `.strip()`. -/
def speech_safe (v : PyVal) : Except PyExc String :=
  if truthy v = false then Except.ok ""
  else
    match v with
    | PyVal.str s => Except.ok (takeStr (stripStr s) 7000)
    | _ => Except.error PyExc.attributeError

/-- The prioritized slot names AskIntentHandler.handle tries for the prompt. -/
def slot_names : List String := ["Query", "query", "Question", "question", "q", "text"]

/-- One probe of the slot loop body: the named slot must exist and carry a
truthy (non-None, non-empty) value. Slots are modelled as an association list
from slot name to optional value. -/
def slotHit (slots : List (String × Option String)) (n : String) :
    Option String :=
  match slots.lookup n with
  | some (some v) => if v = "" then Option.none else some v
  | _ => Option.none

/-- The prompt-extraction portion of AskIntentHandler.handle: when the slots
collection is absent or empty the loop is skipped; otherwise the first slot
name in slot_names with a truthy value wins. -/
def findPrompt (slots : List (String × Option String)) : Option String :=
  if slots.isEmpty then Option.none
  else slot_names.findSome? (slotHit slots)

/-- The terminal states of the session adapter, as the spec names them,
plus Errored for turns ended by the catch-all exception handler. -/
inductive TurnState where
  | NoPromptCaptured
  | DispatchFailed
  | Answered
  | TimedOut
  | Errored
  deriving DecidableEq

/-- What one turn of AskIntentHandler.handle produces: the terminal state,
the spoken text, whether a reprompt (`.ask`) was issued, whether the session
was explicitly ended, and how many dispatch calls and poll attempts ran. -/
structure TurnResult where
  state : TurnState
  speech : String
  asked : Bool
  endSession : Bool
  dispatchCalls : Nat
  pollAttempts : Nat
  deriving DecidableEq

/-- The result of the single send_to_ha_webhook call: a transport-level
exception or the worker-reported status code. -/
inductive DispatchOutcome where
  | exn
  | status (n : Nat)

/-- Model of AskIntentHandler.handle: extract a prompt (else reprompt), dispatch once
(transport failure or status ≥ 400 ends the turn with a fixed apology and no
polling), then poll until a truthy result or the deadline; a truthy string
result is spoken via speech_safe and ends the session, a truthy non-string
result makes speech_safe raise and the catch-all exception handler speaks. -/
def handle (slots : List (String × Option String)) (dispatch : DispatchOutcome)
    (fetch : Nat → PyVal) (fuel : Nat) : TurnResult :=
  match findPrompt slots with
  | Option.none =>
    { state := TurnState.NoPromptCaptured
      speech := "I didn't catch your question. Please say it again."
      asked := true, endSession := false, dispatchCalls := 0, pollAttempts := 0 }
  | some _ =>
    match dispatch with
    | DispatchOutcome.exn =>
      { state := TurnState.DispatchFailed
        speech := "Sorry, I couldn't reach the AI server."
        asked := false, endSession := false, dispatchCalls := 1, pollAttempts := 0 }
    | DispatchOutcome.status n =>
      if 400 ≤ n then
        { state := TurnState.DispatchFailed
          speech := "The AI server returned an error. Try again later."
          asked := false, endSession := false, dispatchCalls := 1, pollAttempts := 0 }
      else
        let pr := poll_loop fetch 0 fuel
        if truthy pr.fst then
          match speech_safe pr.fst with
          | Except.ok s =>
            { state := TurnState.Answered, speech := s, asked := false
              endSession := true, dispatchCalls := 1, pollAttempts := pr.snd }
          | Except.error _ =>
            { state := TurnState.Errored, speech := "Sorry, I ran into an error."
              asked := false, endSession := false, dispatchCalls := 1
              pollAttempts := pr.snd }
        else
          { state := TurnState.TimedOut
            speech := "Sorry, the AI didn't respond in time."
            asked := false, endSession := false, dispatchCalls := 1
            pollAttempts := pr.snd }

theorem post_upperStr : upperStr "POST" = "POST" := rfl

theorem get_upperStr : upperStr "GET" = "GET" := rfl

/-- C1: the claim says extract_ai_text never raises, every missing key, wrong
type or empty container being caught. The code catches only KeyError,
IndexError and TypeError: when the nested path fully resolves but its leaf is
not a string, `.strip()` raises an uncaught AttributeError. -/
theorem c1_normalizer_raises_on_nonstring_leaf :
    extract_ai_text (PyVal.dict [("content", PyVal.dict [("choices",
        PyVal.list [PyVal.dict [("message", PyVal.dict [("content",
        PyVal.int 7)])]])])]) = Except.error PyExc.attributeError := rfl

/-- C2 counterexample: a Write with a valid identifier and text whose store
put fails is answered with status 200 (with ok false), not with the
server-error status 500 the claim asserts. -/
theorem c2_counterexample :
    (lambda_handler ⟨some "POST", some (PyVal.dict
        [("request_id", PyVal.str "x"), ("response", PyVal.str "hello")]), []⟩
        ⟨[], true, false⟩).fst.statusCode = 200
    ∧ (lambda_handler ⟨some "POST", some (PyVal.dict
        [("request_id", PyVal.str "x"), ("response", PyVal.str "hello")]), []⟩
        ⟨[], true, false⟩).fst.statusCode ≠ 500 :=
  ⟨rfl, by decide⟩

/-- C2 amended: for every valid Write, the endpoint answers status 200 and
reports the put outcome as the boolean ok field: ok true with the record
inserted when the put succeeds, ok false with the store unchanged when the
put fails — never status 500. -/
theorem c2_store_outcome_reported_in_ok_field (st : Store) (rid text : String)
    (hrid : rid ≠ "") (htext : stripStr text ≠ "") :
    lambda_handler ⟨some "POST", some (PyVal.dict
        [("request_id", PyVal.str rid), ("response", PyVal.str text)]), []⟩ st
      = (⟨200, PyVal.dict [("ok", PyVal.bool (!st.putFails))]⟩,
         if st.putFails then st
         else { st with table := (rid, stripStr text) :: st.table }) := by
  have htxt : text ≠ "" := by
    intro h
    exact htext (by rw [h]; rfl)
  by_cases hp : st.putFails <;>
    simp [lambda_handler, post_upperStr, List.lookup, extract_ai_text, truthy,
      persist_response, hrid, htext, htxt, hp]

theorem c2_store_outcome_witness :
    ("x" : String) ≠ "" ∧ (stripStr "hello" : String) ≠ ""
    ∧ lambda_handler ⟨some "POST", some (PyVal.dict
        [("request_id", PyVal.str "x"), ("response", PyVal.str "hello")]), []⟩
        ⟨[], true, false⟩
      = (⟨200, PyVal.dict [("ok", PyVal.bool false)]⟩, ⟨[], true, false⟩) :=
  ⟨by decide, by decide,
    c2_store_outcome_reported_in_ok_field ⟨[], true, false⟩ "x" "hello"
      (by decide) (by decide)⟩

/-- C4: a Read for an identifier never written (and whose store read
succeeds) answers status 200 with a null response field, and a Read without a
request_id parameter answers status 400. -/
theorem c4_read_absent_and_missing_id (st : Store) (rid : String)
    (hrid : rid ≠ "") (hget : st.getFails = false)
    (habs : st.table.lookup rid = Option.none) :
    lambda_handler ⟨some "GET", Option.none, [("request_id", rid)]⟩ st
      = (⟨200, PyVal.dict [("response", PyVal.none)]⟩, st)
    ∧ lambda_handler ⟨some "GET", Option.none, []⟩ st
      = (⟨400, PyVal.str "Missing request_id"⟩, st) := by
  constructor <;>
    simp [lambda_handler, get_upperStr, List.lookup, hrid, hget, habs]

theorem c4_read_witness :
    ("abc" : String) ≠ ""
    ∧ (Store.mk [] false false).getFails = false
    ∧ (Store.mk [] false false).table.lookup "abc" = Option.none
    ∧ lambda_handler ⟨some "GET", Option.none, [("request_id", "abc")]⟩
        ⟨[], false, false⟩
      = (⟨200, PyVal.dict [("response", PyVal.none)]⟩, ⟨[], false, false⟩)
    ∧ lambda_handler ⟨some "GET", Option.none, []⟩ ⟨[], false, false⟩
      = (⟨400, PyVal.str "Missing request_id"⟩, ⟨[], false, false⟩) :=
  ⟨by decide, rfl, rfl,
    (c4_read_absent_and_missing_id ⟨[], false, false⟩ "abc" (by decide) rfl
      rfl).1,
    (c4_read_absent_and_missing_id ⟨[], false, false⟩ "abc" (by decide) rfl
      rfl).2⟩

/-- C5: the claim says every Write with a missing request_id answers 400. A
body whose payload makes the normalizer raise its uncaught AttributeError
(non-string leaf under the nested path) is instead answered 500 by the outer
exception handler, before the request_id check runs; the store is unchanged. -/
theorem c5_missing_id_answered_500_on_raising_payload (st : Store) :
    lambda_handler ⟨some "POST", some (PyVal.dict [("response",
        PyVal.dict [("content", PyVal.dict [("choices", PyVal.list
        [PyVal.dict [("message", PyVal.dict [("content",
        PyVal.int 7)])]])])])]), []⟩ st
      = (⟨500, PyVal.str "Internal server error"⟩, st) := rfl

/-- C6: the normalizer round-trip cases: the known nested shape yields "hi",
a bare padded string yields "hello", a flat text key yields "x", and the
empty mapping yields absent. -/
theorem c6_normalizer_round_trip :
    extract_ai_text (PyVal.dict [("content", PyVal.dict [("choices",
        PyVal.list [PyVal.dict [("message", PyVal.dict [("content",
        PyVal.str " hi ")])]])])]) = Except.ok (some "hi")
    ∧ extract_ai_text (PyVal.str "  hello  ") = Except.ok (some "hello")
    ∧ extract_ai_text (PyVal.dict [("text", PyVal.str "x")])
      = Except.ok (some "x")
    ∧ extract_ai_text (PyVal.dict []) = Except.ok Option.none :=
  ⟨rfl, rfl, rfl, rfl⟩

/-- C10: when the body's response field is falsy — absent, null, empty
string, zero, false, or any other falsy value — the text field is used as the
raw payload: the Write stores its normalized text and reports ok true. -/
theorem c10_text_used_when_response_falsy (st : Store) (rv : PyVal)
    (t : String) (hrv : truthy rv = false) (ht : stripStr t ≠ "")
    (hp : st.putFails = false) :
    lambda_handler ⟨some "POST", some (PyVal.dict
        [("request_id", PyVal.str "x"), ("response", rv),
         ("text", PyVal.str t)]), []⟩ st
      = (⟨200, PyVal.dict [("ok", PyVal.bool true)]⟩,
         { st with table := ("x", stripStr t) :: st.table }) := by
  cases rv <;>
    simp_all [lambda_handler, post_upperStr, List.lookup, extract_ai_text,
      truthy, persist_response]

theorem c10_text_used_witness :
    truthy (PyVal.str "") = false ∧ (stripStr "hi" : String) ≠ ""
    ∧ (Store.mk [] false false).putFails = false
    ∧ lambda_handler ⟨some "POST", some (PyVal.dict
        [("request_id", PyVal.str "x"), ("response", PyVal.str ""),
         ("text", PyVal.str "hi")]), []⟩ ⟨[], false, false⟩
      = (⟨200, PyVal.dict [("ok", PyVal.bool true)]⟩,
         ⟨[("x", "hi")], false, false⟩) :=
  ⟨rfl, by decide, rfl,
    c10_text_used_when_response_falsy ⟨[], false, false⟩ (PyVal.str "") "hi"
      rfl (by decide) rfl⟩

theorem poll_loop_succ (fetch : Nat → PyVal) (i n : Nat) :
    poll_loop fetch i (n+1)
      = if truthy (fetch i) = true then (fetch i, 1)
        else ((poll_loop fetch (i+1) n).fst,
              (poll_loop fetch (i+1) n).snd + 1) := rfl

theorem poll_loop_none_iff (fetch : Nat → PyVal) :
    ∀ (fuel i : Nat),
      (poll_loop fetch i fuel).fst = PyVal.none
        ↔ ∀ j, j < fuel → truthy (fetch (i + j)) = false := by
  intro fuel
  induction fuel with
  | zero =>
    intro i
    simp [poll_loop]
  | succ n ih =>
    intro i
    rw [poll_loop_succ]
    by_cases h : truthy (fetch i) = true
    · rw [if_pos h]
      constructor
      · intro hnone
        exfalso
        have hfi : fetch i = PyVal.none := hnone
        rw [hfi] at h
        simp [truthy] at h
      · intro hall
        exfalso
        have h0 := hall 0 (Nat.succ_pos n)
        rw [Nat.add_zero] at h0
        rw [h] at h0
        exact absurd h0 (by decide)
    · rw [if_neg h]
      have hb : truthy (fetch i) = false := by
        cases hx : truthy (fetch i)
        · rfl
        · exact absurd hx h
      constructor
      · intro hnone j hj
        rcases Nat.eq_zero_or_pos j with hj0 | hjpos
        · rw [hj0, Nat.add_zero]
          exact hb
        · obtain ⟨k, rfl⟩ : ∃ k, j = k + 1 := ⟨j - 1, by omega⟩
          have hk : k < n := by omega
          have hres := (ih (i+1)).mp hnone k hk
          rw [show i + 1 + k = i + (k + 1) by omega] at hres
          exact hres
      · intro hall
        apply (ih (i+1)).mpr
        intro j hj
        have hres := hall (j+1) (by omega)
        rw [show i + (j + 1) = i + 1 + j by omega] at hres
        exact hres

theorem poll_loop_success (fetch : Nat → PyVal) :
    ∀ (fuel i : Nat),
      (poll_loop fetch i fuel).fst ≠ PyVal.none →
        ∃ j, j < fuel ∧ (poll_loop fetch i fuel).fst = fetch (i + j)
          ∧ truthy (fetch (i + j)) = true := by
  intro fuel
  induction fuel with
  | zero =>
    intro i h
    exact absurd rfl h
  | succ n ih =>
    intro i h
    rw [poll_loop_succ] at h ⊢
    by_cases hc : truthy (fetch i) = true
    · rw [if_pos hc] at h ⊢
      refine ⟨0, Nat.succ_pos n, ?_, ?_⟩
      · rw [Nat.add_zero]
      · rw [Nat.add_zero]
        exact hc
    · rw [if_neg hc] at h ⊢
      have h2 : (poll_loop fetch (i+1) n).fst ≠ PyVal.none := h
      obtain ⟨j, hj, heq, ht⟩ := ih (i+1) h2
      refine ⟨j+1, by omega, ?_, ?_⟩
      · rw [show i + (j + 1) = i + 1 + j by omega]
        exact heq
      · rw [show i + (j + 1) = i + 1 + j by omega]
        exact ht

/-- C3: a transport exception, a non-200 status, and an undecodable body each
make a single poll attempt yield absent (None) rather than raise; the polling
loop returns absent exactly when no attempt within the deadline's budget is
truthy (so single-attempt failures never abort it), and a non-absent return
is the value of some successful attempt. -/
theorem c3_poll_failures_absorbed_loop_runs_to_deadline :
    fetch_response HttpOutcome.exn = PyVal.none
    ∧ (∀ s : Nat, fetch_response (HttpOutcome.response s Option.none)
        = PyVal.none)
    ∧ (∀ (s : Nat) (b : Option PyVal), s ≠ 200 →
        fetch_response (HttpOutcome.response s b) = PyVal.none)
    ∧ (∀ (fetch : Nat → PyVal) (i fuel : Nat),
        (poll_loop fetch i fuel).fst = PyVal.none
          ↔ ∀ j, j < fuel → truthy (fetch (i + j)) = false)
    ∧ (∀ (fetch : Nat → PyVal) (i fuel : Nat),
        (poll_loop fetch i fuel).fst ≠ PyVal.none →
          ∃ j, j < fuel ∧ (poll_loop fetch i fuel).fst = fetch (i + j)
            ∧ truthy (fetch (i + j)) = true) := by
  refine ⟨rfl, ?_, ?_, ?_, ?_⟩
  · intro s
    by_cases h : s = 200 <;> simp [fetch_response, h]
  · intro s b h
    simp [fetch_response, h]
  · intro fetch i fuel
    exact poll_loop_none_iff fetch fuel i
  · intro fetch i fuel
    exact poll_loop_success fetch fuel i

theorem c3_witness :
    (500 : Nat) ≠ 200
    ∧ fetch_response (HttpOutcome.response 500 Option.none) = PyVal.none
    ∧ (poll_loop (fun _ => PyVal.none) 0 3).fst = PyVal.none :=
  ⟨by decide,
   c3_poll_failures_absorbed_loop_runs_to_deadline.2.2.1 500 Option.none
     (by decide),
   (c3_poll_failures_absorbed_loop_runs_to_deadline.2.2.2.1
     (fun _ => PyVal.none) 0 3).mpr (fun j hj => rfl)⟩

/-- C7: a transport-level dispatch failure or a worker-reported status of at
least 400 ends the turn in DispatchFailed with the corresponding fixed
apology, a single dispatch call (no retry), and zero poll attempts. -/
theorem c7_dispatch_failure_is_terminal :
    ∀ (slots : List (String × Option String)) (fetch : Nat → PyVal)
      (fuel : Nat) (v : String), findPrompt slots = some v →
      handle slots DispatchOutcome.exn fetch fuel
        = { state := TurnState.DispatchFailed,
            speech := "Sorry, I couldn't reach the AI server.",
            asked := false, endSession := false, dispatchCalls := 1,
            pollAttempts := 0 }
      ∧ ∀ n, 400 ≤ n →
          handle slots (DispatchOutcome.status n) fetch fuel
            = { state := TurnState.DispatchFailed,
                speech := "The AI server returned an error. Try again later.",
                asked := false, endSession := false, dispatchCalls := 1,
                pollAttempts := 0 } := by
  intro slots fetch fuel v hv
  constructor
  · simp [handle, hv]
  · intro n hn
    simp [handle, hv, hn]

theorem c7_witness :
    findPrompt [("Query", some "q")] = some "q"
    ∧ (400 : Nat) ≤ 503
    ∧ handle [("Query", some "q")] DispatchOutcome.exn (fun _ => PyVal.none) 5
      = { state := TurnState.DispatchFailed,
          speech := "Sorry, I couldn't reach the AI server.",
          asked := false, endSession := false, dispatchCalls := 1,
          pollAttempts := 0 }
    ∧ handle [("Query", some "q")] (DispatchOutcome.status 503)
        (fun _ => PyVal.none) 5
      = { state := TurnState.DispatchFailed,
          speech := "The AI server returned an error. Try again later.",
          asked := false, endSession := false, dispatchCalls := 1,
          pollAttempts := 0 } :=
  ⟨rfl, by decide,
   (c7_dispatch_failure_is_terminal [("Query", some "q")]
     (fun _ => PyVal.none) 5 "q" rfl).1,
   (c7_dispatch_failure_is_terminal [("Query", some "q")]
     (fun _ => PyVal.none) 5 "q" rfl).2 503 (by decide)⟩

/-- C8: on an answered turn (successful dispatch and a non-empty string
fetched by the poller) the spoken text is the fetched result trimmed and then
truncated to at most 7000 characters, and the session is ended. -/
theorem c8_answered_speech_trimmed_truncated :
    ∀ (slots : List (String × Option String)) (v : String) (n : Nat)
      (fetch : Nat → PyVal) (fuel : Nat) (s : String),
      findPrompt slots = some v → n < 400 →
      (poll_loop fetch 0 fuel).fst = PyVal.str s → s ≠ "" →
      handle slots (DispatchOutcome.status n) fetch fuel
        = { state := TurnState.Answered,
            speech := takeStr (stripStr s) 7000, asked := false,
            endSession := true, dispatchCalls := 1,
            pollAttempts := (poll_loop fetch 0 fuel).snd } := by
  intro slots v n fetch fuel s hv hn hp hs
  have hn2 : ¬ 400 ≤ n := by omega
  simp [handle, hv, hn2, hp, truthy, speech_safe, hs]

theorem replicate_a_dropWhile_whitespace (n : Nat) :
    (List.replicate n 'a').dropWhile Char.isWhitespace
      = List.replicate n 'a' := by
  induction n with
  | zero => rfl
  | succ k ih =>
    rw [List.replicate_succ, List.dropWhile_cons]
    simp [ih]

theorem strip_replicate_a (n : Nat) :
    stripStr (String.mk (List.replicate n 'a'))
      = String.mk (List.replicate n 'a') := by
  unfold stripStr
  simp [replicate_a_dropWhile_whitespace, List.reverse_replicate]

theorem take_7000_of_replicate_8000_a :
    takeStr (String.mk (List.replicate 8000 'a')) 7000
      = String.mk (List.replicate 7000 'a') := by
  unfold takeStr
  rw [show (String.mk (List.replicate 8000 'a')).data
      = List.replicate 8000 'a' from rfl]
  rw [List.take_replicate]
  norm_num

theorem c8_witness :
    findPrompt [("Query", some "q")] = some "q"
    ∧ (200 : Nat) < 400
    ∧ (poll_loop (fun _ => PyVal.str (String.mk (List.replicate 8000 'a')))
        0 1).fst = PyVal.str (String.mk (List.replicate 8000 'a'))
    ∧ String.mk (List.replicate 8000 'a') ≠ ""
    ∧ handle [("Query", some "q")] (DispatchOutcome.status 200)
        (fun _ => PyVal.str (String.mk (List.replicate 8000 'a'))) 1
      = { state := TurnState.Answered,
          speech := takeStr (stripStr (String.mk (List.replicate 8000 'a')))
            7000,
          asked := false, endSession := true, dispatchCalls := 1,
          pollAttempts := (poll_loop
            (fun _ => PyVal.str (String.mk (List.replicate 8000 'a')))
            0 1).snd }
    ∧ takeStr (stripStr (String.mk (List.replicate 8000 'a'))) 7000
      = String.mk (List.replicate 7000 'a') :=
  ⟨rfl, by decide, rfl, by decide,
   c8_answered_speech_trimmed_truncated [("Query", some "q")] "q" 200
     (fun _ => PyVal.str (String.mk (List.replicate 8000 'a'))) 1
     (String.mk (List.replicate 8000 'a')) rfl (by decide) rfl (by decide),
   by rw [strip_replicate_a, take_7000_of_replicate_8000_a]⟩

theorem slotHit_nonempty (slots : List (String × Option String))
    (n : String) (v : String) (h : slotHit slots n = some v) : v ≠ "" := by
  unfold slotHit at h
  split at h
  next w =>
    split at h
    next => cases h
    next hw =>
      injection h with h2
      subst h2
      exact hw
  next => cases h

theorem findSome_first {α β : Type} (f : α → Option β) :
    ∀ (l : List α) (v : β), l.findSome? f = some v →
      ∃ i, ∃ h : i < l.length,
        f (l.get ⟨i, h⟩) = some v
        ∧ ∀ j (hj : j < i),
            f (l.get ⟨j, Nat.lt_trans hj h⟩) = Option.none := by
  intro l
  induction l with
  | nil =>
    intro v hv
    simp [List.findSome?] at hv
  | cons a as ih =>
    intro v hv
    rw [List.findSome?_cons] at hv
    cases hfa : f a with
    | some w =>
      rw [hfa] at hv
      refine ⟨0, Nat.succ_pos as.length, ?_, ?_⟩
      · exact hfa.trans hv
      · intro j hj
        exact absurd hj (Nat.not_lt_zero j)
    | none =>
      rw [hfa] at hv
      obtain ⟨i, h, hget, hprev⟩ := ih v hv
      refine ⟨i+1, Nat.succ_lt_succ h, ?_, ?_⟩
      · exact hget
      · intro j hj
        cases j with
        | zero => exact hfa
        | succ k => exact hprev k (Nat.lt_of_succ_lt_succ hj)

/-- C9: when no slot in the prioritized list carries a non-empty value, the
turn is NoPromptCaptured and the user is asked to repeat; when a prompt is
captured, it is the value of some slot name in slot_names, it is non-empty,
and every slot name earlier in the priority order failed to yield a value. -/
theorem c9_prompt_from_prioritized_slots :
    ∀ (slots : List (String × Option String)) (dispatch : DispatchOutcome)
      (fetch : Nat → PyVal) (fuel : Nat),
      (findPrompt slots = Option.none →
        handle slots dispatch fetch fuel
          = { state := TurnState.NoPromptCaptured,
              speech := "I didn't catch your question. Please say it again.",
              asked := true, endSession := false, dispatchCalls := 0,
              pollAttempts := 0 })
      ∧ ∀ v, findPrompt slots = some v →
          v ≠ ""
          ∧ ∃ i, ∃ h : i < slot_names.length,
              slotHit slots (slot_names.get ⟨i, h⟩) = some v
              ∧ ∀ j (hj : j < i),
                  slotHit slots (slot_names.get ⟨j, Nat.lt_trans hj h⟩)
                    = Option.none := by
  intro slots dispatch fetch fuel
  constructor
  · intro hnone
    simp [handle, hnone]
  · intro v hv
    rw [findPrompt] at hv
    by_cases he : slots.isEmpty
    · rw [if_pos he] at hv
      cases hv
    · rw [if_neg he] at hv
      obtain ⟨i, h, hget, hprev⟩ := findSome_first (slotHit slots)
        slot_names v hv
      exact ⟨slotHit_nonempty slots (slot_names.get ⟨i, h⟩) v hget,
        i, h, hget, hprev⟩

theorem c9_witness :
    findPrompt [("foo", some "x")] = Option.none
    ∧ handle [("foo", some "x")] DispatchOutcome.exn (fun _ => PyVal.none) 2
      = { state := TurnState.NoPromptCaptured,
          speech := "I didn't catch your question. Please say it again.",
          asked := true, endSession := false, dispatchCalls := 0,
          pollAttempts := 0 }
    ∧ findPrompt [("question", some "when")] = some "when"
    ∧ ("when" : String) ≠ "" :=
  ⟨rfl,
   (c9_prompt_from_prioritized_slots [("foo", some "x")]
     DispatchOutcome.exn (fun _ => PyVal.none) 2).1 rfl,
   rfl,
   ((c9_prompt_from_prioritized_slots [("question", some "when")]
     DispatchOutcome.exn (fun _ => PyVal.none) 2).2 "when" rfl).1⟩

end AIProjects
